import Mathlib

/-!
Verification of the clone pipeline in src/clone.py.

The embedding models the data and control flow of CloneWorker.clone_messages
(lines 121-249), the resume_clone handler (lines 629-669) and their helpers.
Network effects (page fetches, sends, the stop marker created by another task)
are supplied by explicit schedules, so every run of the Python coroutine
corresponds to one choice of schedule.
-/

namespace CloneSpec

/-- A fetched message as used by clone.py: a platform id, the optional text
(`msg.text or msg.message` is collapsed into one optional field, since the code
always reads them through that disjunction), and whether it carries media. -/
structure Message where
  id : Int
  text : Option String
  media : Bool
deriving DecidableEq, Repr

/-- Python truthiness of the optional `start_id` / `end_id` arguments of
clone_messages (line 189: `if start_id and end_id:`). `None` and `0` are
falsy; every other int is truthy. -/
def pyTruthy : Option Int → Bool
  | none => false
  | some v => v != 0

/-- Lines 153-179: `all_messages = []` followed by
`all_messages.extend(history.messages)` for each fetched page. -/
def collectAll (pages : List (List Message)) : List Message :=
  pages.foldl (fun acc p => acc ++ p) []

/-- Line 188: `all_messages.reverse()` - the output of the Channel Reader
handed to the range filter. -/
def readerOutput (pages : List (List Message)) : List Message :=
  (collectAll pages).reverse

/-- Lines 189-190: the range filter. The condition is Python truthiness of
both bounds, and the kept messages are those with
`start_id <= msg.id <= end_id`, in order. -/
def rangeFilter (s e : Option Int) (msgs : List Message) : List Message :=
  if pyTruthy s && pyTruthy e then
    msgs.filter (fun m => decide (s.getD 0 ≤ m.id) && decide (m.id ≤ e.getD 0))
  else
    msgs

/-- Outcome of the resume_clone handler (lines 629-669). `noLogFile` is the
reply for a missing sent log (line 636), `emptyLog` the reply for an empty one
(line 644); in both cases the handler returns without creating a task.
`started s e` records that `clone_messages` was launched with `start_id = s`
and `end_id = e` (lines 659-663; `end_id` is not passed, hence `none`). -/
inductive ResumeResult where
  | noLogFile
  | emptyLog
  | started (startId : Int) (endId : Option Int)
deriving DecidableEq, Repr

/-- Lines 629-663 of resume_clone, over the sent-log contents: `none` models a
missing file, `some lines` the parsed id lines. `last_id` is the final line and
the job is launched with `start_id = last_id + 1` and no `end_id`. -/
def resume_clone (log : Option (List Int)) : ResumeResult :=
  match log with
  | none => ResumeResult.noLogFile
  | some [] => ResumeResult.emptyLog
  | some (l :: ls) =>
      ResumeResult.started ((l :: ls).getLast (List.cons_ne_nil l ls) + 1) none

/-- Helper: collectAll is the flattening of the page list. -/
theorem collectAll_eq_flatten (pages : List (List Message)) :
    collectAll pages = pages.flatten := by
  have h : ∀ (l : List (List Message)) (acc : List Message),
      l.foldl (fun a p => a ++ p) acc = acc ++ l.flatten := by
    intro l
    induction l with
    | nil => intro acc; simp
    | cons p rest ih => intro acc; simp [ih, List.append_assoc]
  simpa using h pages []

/-- The concrete page sequence refuting claim C1 as stated: both pages are
internally newest-first, and the oldest id of the second page (3) is smaller
than the oldest id of the first page (5), yet the second page also holds id 8,
which is larger than 5. -/
def pagesCex : List (List Message) :=
  [[{ id := 10, text := none, media := false }, { id := 5, text := none, media := false }],
   [{ id := 8, text := none, media := false }, { id := 3, text := none, media := false }]]

/-- C1 (counterexample): the claim hypotheses - pages internally newest-first
and each page with an oldest id below the oldest id of the previous page -
hold for pagesCex, yet the collected-and-reversed output is not strictly
increasing by id. The platform contract actually anchors every later page
strictly below the whole previous page, which the claim hypothesis does not
capture. -/
theorem reader_claim_hypotheses_insufficient :
    (∀ p ∈ pagesCex, p.Pairwise (fun a b => b.id < a.id)) ∧
    pagesCex.Pairwise
      (fun p q => (q.map Message.id).getLastD 0 < (p.map Message.id).getLastD 0) ∧
    ¬ (readerOutput pagesCex).Pairwise (fun a b => a.id < b.id) := by
  decide

/-- C1 (amended): if every page is internally strictly descending by id
(newest first) and every id of a later page is smaller than every id of an
earlier page (which is what anchoring each fetch at the oldest id of the
previous page guarantees), then the collected-and-reversed Reader output is
strictly increasing by message id. -/
theorem reader_output_strictly_ascending (pages : List (List Message))
    (hpage : ∀ p ∈ pages, p.Pairwise (fun a b => b.id < a.id))
    (hbetween : pages.Pairwise (fun p q => ∀ a ∈ p, ∀ b ∈ q, b.id < a.id)) :
    (readerOutput pages).Pairwise (fun a b => a.id < b.id) := by
  unfold readerOutput
  rw [collectAll_eq_flatten, List.pairwise_reverse]
  exact List.pairwise_flatten.mpr ⟨hpage, hbetween⟩

/-- Witness for C1 (amended) at a concrete two-page history. -/
theorem reader_output_strictly_ascending_witness :
    (readerOutput
      [[{ id := 9, text := none, media := false }, { id := 7, text := none, media := false }],
       [{ id := 4, text := none, media := false }, { id := 2, text := none, media := false }]]).Pairwise
      (fun a b => a.id < b.id) :=
  reader_output_strictly_ascending _ (by decide) (by decide)

/-- C2 (counterexample): with both bounds supplied but `start_id = 0`, the
Python condition `if start_id and end_id` is falsy, so the code passes the
sequence through unchanged instead of producing the claimed subsequence
with 0 <= id <= 5 (which would drop the message with id 10). -/
theorem range_filter_zero_bound_not_filtered :
    rangeFilter (some 0) (some 5) [{ id := 10, text := none, media := false }] ≠
      List.filter (fun m => decide ((0 : Int) ≤ m.id) && decide (m.id ≤ (5 : Int)))
        [{ id := 10, text := none, media := false }] := by
  decide

/-- C2 (amended): when both bounds are supplied and nonzero (Python-truthy),
the output is exactly the ordered subsequence with start <= id <= end; when
either bound is absent or zero, the output is the input unchanged. -/
theorem range_filter_exact (s e : Option Int) (msgs : List Message) :
    (∀ sv ev, s = some sv → sv ≠ 0 → e = some ev → ev ≠ 0 →
      rangeFilter s e msgs =
        msgs.filter (fun m => decide (sv ≤ m.id) && decide (m.id ≤ ev))) ∧
    (s = none ∨ s = some 0 ∨ e = none ∨ e = some 0 → rangeFilter s e msgs = msgs) := by
  constructor
  · rintro sv ev rfl hsv rfl hev
    simp [rangeFilter, pyTruthy, hsv, hev]
  · rintro (rfl | rfl | rfl | rfl) <;> simp [rangeFilter, pyTruthy]

/-- Witness for C2 (amended): nonzero bounds filter exactly; an absent start
bound passes the input through. -/
theorem range_filter_exact_witness :
    rangeFilter (some 2) (some 5)
        [{ id := 1, text := none, media := false },
         { id := 3, text := none, media := false },
         { id := 7, text := none, media := false }] =
      List.filter (fun m => decide ((2 : Int) ≤ m.id) && decide (m.id ≤ (5 : Int)))
        [{ id := 1, text := none, media := false },
         { id := 3, text := none, media := false },
         { id := 7, text := none, media := false }] ∧
    rangeFilter none (some 5) [{ id := 1, text := none, media := false }] =
      [{ id := 1, text := none, media := false }] :=
  ⟨(range_filter_exact (some 2) (some 5) _).1 2 5 rfl (by decide) rfl (by decide),
   (range_filter_exact none (some 5) _).2 (Or.inl rfl)⟩

/-- C5: resume starts from the id on the final sent-log line plus one, with no
end bound; a missing or empty sent log is rejected with the corresponding
nothing-to-resume reply and no job is started. -/
theorem resume_next_start (log : Option (List Int)) :
    (log = none → resume_clone log = ResumeResult.noLogFile) ∧
    (log = some [] → resume_clone log = ResumeResult.emptyLog) ∧
    (∀ l ls, log = some (l :: ls) →
      resume_clone log =
        ResumeResult.started ((l :: ls).getLast (List.cons_ne_nil l ls) + 1) none) := by
  refine ⟨?_, ?_, ?_⟩
  · rintro rfl; rfl
  · rintro rfl; rfl
  · rintro l ls rfl; rfl

/-- Witness for C5 at a concrete log ending in 9, and at a missing log. -/
theorem resume_next_start_witness :
    resume_clone (some [4, 9]) = ResumeResult.started 10 none ∧
    resume_clone none = ResumeResult.noLogFile := by
  constructor
  · have h := (resume_next_start (some [4, 9])).2.2 4 [9] rfl
    rw [h]; rfl
  · exact (resume_next_start none).1 rfl

/-- C9: a job started via resume receives only a start bound (end bound
absent), so the range-filter condition is not met and the whole collected
history passes through unchanged - in particular every message with id below
the resume start (already recorded in the sent log) is replicated again. -/
theorem resume_launch_bypasses_filter (l : Int) (ls : List Int) (msgs : List Message) :
    resume_clone (some (l :: ls)) =
      ResumeResult.started ((l :: ls).getLast (List.cons_ne_nil l ls) + 1) none ∧
    rangeFilter (some ((l :: ls).getLast (List.cons_ne_nil l ls) + 1)) none msgs = msgs := by
  constructor
  · rfl
  · simp [rangeFilter, pyTruthy]

/-- The status messages written by update_status along clone_messages. Each
constructor corresponds to one literal message string in the source (the
numeric payloads are the values interpolated into it). -/
inductive Status where
  | alreadyRunning
  | clientInitFailed
  | missingChannels
  | channelAccessFailed
  | collecting
  | collectedCount (n : Nat)
  | stoppedByUser
  | collectionError
  | readyToClone (total : Nat)
  | stoppedDuring (done total : Nat)
  | cloningProgress (done total : Nat)
  | errorOnMessage (id : Int)
  | completed (done total : Nat)
  | stoppedEarly (done total : Nat)
deriving DecidableEq, Repr

/-- The status snapshot persisted by update_status (lines 103-110): the
message and the progress pair at write time. The wall-clock timestamp is not
modeled. The notification send that follows the write can fail and is
swallowed (lines 112-119), so it has no observable effect here. -/
structure Snapshot where
  message : Status
  progress : Nat × Nat
deriving DecidableEq, Repr

/-- The per-user config as far as clone_messages reads it: whether the api
credential keys are present (line 86) and whether the source and target
channel keys are present (line 134). -/
structure Config where
  hasApiCreds : Bool
  hasChannels : Bool
deriving DecidableEq, Repr

/-- The durable per-user artifacts touched by the worker: the status snapshot
file, the append-only sent log (ids), the append-only error log (modeled by
the ids of the failing messages), the two control markers, and the config. -/
structure PersistedState where
  statusFile : Option Snapshot
  sentLog : List Int
  errorLog : List Int
  stopMarker : Bool
  startMarker : Bool
  config : Config
deriving DecidableEq, Repr

/-- The mutable state threaded through the collection and replication loops:
the persisted files, the number of os.remove calls on the stop marker so far
in this invocation, the current presence of the stop marker, and
self.progress. -/
structure St where
  statusFile : Option Snapshot
  sentLog : List Int
  errorLog : List Int
  removals : Nat
  flag : Bool
  progress : Nat × Nat
deriving DecidableEq, Repr

/-- update_status: overwrite the snapshot file with the message and the
current progress pair. -/
def writeStatus (st : St) (m : Status) : St :=
  { st with statusFile := some { message := m, progress := st.progress } }

@[simp] theorem writeStatus_sentLog (st : St) (m : Status) :
    (writeStatus st m).sentLog = st.sentLog := rfl

@[simp] theorem writeStatus_errorLog (st : St) (m : Status) :
    (writeStatus st m).errorLog = st.errorLog := rfl

@[simp] theorem writeStatus_removals (st : St) (m : Status) :
    (writeStatus st m).removals = st.removals := rfl

@[simp] theorem writeStatus_flag (st : St) (m : Status) :
    (writeStatus st m).flag = st.flag := rfl

@[simp] theorem writeStatus_progress (st : St) (m : Status) :
    (writeStatus st m).progress = st.progress := rfl

@[simp] theorem writeStatus_statusFile (st : St) (m : Status) :
    (writeStatus st m).statusFile = some { message := m, progress := st.progress } := rfl

/-- The collection loop (lines 157-186). One iteration: check the stop marker
(`stops` holds, per check, whether another task has created it by then; the
current state flag covers a marker already present at entry); if present,
remove it, report, and break. Otherwise fetch the next page (`errs` schedules
a raised exception per fetch; an exhausted platform returns an empty page,
modeled by running past the end of `pages` or by an empty entry); an empty
page breaks, otherwise the page extends the accumulator and, when the total
hits a multiple of 100, a progress status is written. The anchoring of each
fetch at the oldest id of the previous page (line 179) is implicit in the
page sequence supplied by the environment. -/
def collectLoop (pages : List (List Message)) (stops errs : List Bool)
    (st : St) (acc : List Message) : St × List Message :=
  if st.flag || stops.headD false then
    (writeStatus { st with flag := false, removals := st.removals + 1 } Status.stoppedByUser,
     acc)
  else if errs.headD false then
    (writeStatus st Status.collectionError, acc)
  else
    match pages with
    | [] => (st, acc)
    | p :: rest =>
      if p.isEmpty then (st, acc)
      else
        let acc2 := acc ++ p
        let st2 := if acc2.length % 100 == 0
          then writeStatus st (Status.collectedCount acc2.length) else st
        collectLoop rest stops.tail errs.tail st2 acc2

/-- The effect of one failed transfer (lines 235-238): append to the error
log and write the warning status. -/
def sendStepFail (m : Message) (st : St) : St :=
  writeStatus { st with errorLog := st.errorLog ++ [m.id] } (Status.errorOnMessage m.id)

/-- The effect of one successful (or no-op) transfer (lines 209-233): append
the id to the sent log, advance progress, and write the periodic progress
status when due. -/
def sendStepOk (m : Message) (interval : Nat) (st : St) : St :=
  let total := st.progress.2
  let done := st.progress.1 + 1
  let st1 := { st with sentLog := st.sentLog ++ [m.id], progress := (done, total) }
  if done % interval == 0 || done == total
    then writeStatus st1 (Status.cloningProgress done total) else st1

@[simp] theorem sendStepFail_sentLog (m : Message) (st : St) :
    (sendStepFail m st).sentLog = st.sentLog := rfl

@[simp] theorem sendStepFail_errorLog (m : Message) (st : St) :
    (sendStepFail m st).errorLog = st.errorLog ++ [m.id] := rfl

@[simp] theorem sendStepFail_removals (m : Message) (st : St) :
    (sendStepFail m st).removals = st.removals := rfl

@[simp] theorem sendStepFail_flag (m : Message) (st : St) :
    (sendStepFail m st).flag = st.flag := rfl

@[simp] theorem sendStepFail_progress (m : Message) (st : St) :
    (sendStepFail m st).progress = st.progress := rfl

@[simp] theorem sendStepOk_sentLog (m : Message) (interval : Nat) (st : St) :
    (sendStepOk m interval st).sentLog = st.sentLog ++ [m.id] := by
  unfold sendStepOk; dsimp only; split <;> rfl

@[simp] theorem sendStepOk_errorLog (m : Message) (interval : Nat) (st : St) :
    (sendStepOk m interval st).errorLog = st.errorLog := by
  unfold sendStepOk; dsimp only; split <;> rfl

@[simp] theorem sendStepOk_removals (m : Message) (interval : Nat) (st : St) :
    (sendStepOk m interval st).removals = st.removals := by
  unfold sendStepOk; dsimp only; split <;> rfl

@[simp] theorem sendStepOk_flag (m : Message) (interval : Nat) (st : St) :
    (sendStepOk m interval st).flag = st.flag := by
  unfold sendStepOk; dsimp only; split <;> rfl

@[simp] theorem sendStepOk_progress (m : Message) (interval : Nat) (st : St) :
    (sendStepOk m interval st).progress = (st.progress.1 + 1, st.progress.2) := by
  unfold sendStepOk; dsimp only; split <;> rfl

/-- The replication loop (lines 202-238). One iteration: check the stop
marker (schedule `stops`); if present, report the partial count, remove it,
and break. Otherwise the message is transferred; `fails` schedules a raised
exception during the transfer (download or send), in which case the failure
is appended to the error log and a warning status written (line 237 checks
`processed % 1 == 0`, which always holds). On success - including the no-op
case of a message with neither media nor text - the id is appended to the
sent log, progress advances, and every progress_interval items (and on the
final item) a progress status is written. The media download / text send
dispatch and the scratch-file cleanup only determine which network calls can
raise; they are absorbed into the `fails` schedule. -/
def sendLoop (msgs : List Message) (stops fails : List Bool)
    (interval : Nat) (st : St) : St :=
  match msgs with
  | [] => st
  | m :: ms =>
    if st.flag || stops.headD false then
      let st1 := writeStatus st (Status.stoppedDuring st.progress.1 st.progress.2)
      { st1 with flag := false, removals := st1.removals + 1 }
    else if fails.headD false then
      sendLoop ms stops.tail fails.tail interval (sendStepFail m st)
    else
      sendLoop ms stops.tail fails.tail interval (sendStepOk m interval st)

/-- The final status block (lines 240-247): if the stop marker reappeared
after the last in-loop check (`finalStopSet`), report stopped-early and
remove it; otherwise report completed with the processed count. -/
def finalizeStatus (finalStopSet : Bool) (st : St) : St :=
  if st.flag || finalStopSet then
    writeStatus { st with flag := false, removals := st.removals + 1 }
      (Status.stoppedEarly st.progress.1 st.progress.2)
  else
    writeStatus st (Status.completed st.progress.1 st.progress.2)

/-- The environment of one clone_messages run: whether get_entity raises, the
pages the platform returns, and the schedules for stop-marker creation and
per-operation exceptions. Schedules shorter than the run mean the event never
happens (headD gives false). -/
structure CloneEnv where
  resolveFails : Bool
  pages : List (List Message)
  collectStopSets : List Bool
  collectErrs : List Bool
  sendStopSets : List Bool
  sendFails : List Bool
  finalStopSet : Bool
deriving Repr

/-- The observable outcome of one clone_messages invocation: the persisted
artifacts, the final progress pair, whether a client connection was
established (initialize_client, line 94) and whether it was released
(line 249), and how many times the stop marker was removed. -/
structure CloneResult where
  ps : PersistedState
  progress : Nat × Nat
  connected : Bool
  disconnected : Bool
  removals : Nat
deriving DecidableEq, Repr

/-- clone_messages (lines 121-249). The branches, in source order: the
is_cloning guard (121-124, which still goes through update_status and hence
overwrites the status snapshot); initialize_client returning False for
missing credentials before any connection (84-95, 129-132); the missing
source/target check after the client has connected (134-137, no disconnect);
get_entity failure (139-149, no disconnect); then collection, reversal, the
range filter, progress reset, the replication loop, the final status block,
and the disconnect at line 249. `prevProgress` is self.progress at entry
(used by status writes issued before line 193 resets it). -/
def clone_messages (isCloning : Bool) (prevProgress : Nat × Nat)
    (startId endId : Option Int) (env : CloneEnv) (ps : PersistedState) : CloneResult :=
  if isCloning then
    { ps := { ps with statusFile := some { message := Status.alreadyRunning, progress := prevProgress } },
      progress := prevProgress, connected := false, disconnected := false, removals := 0 }
  else if !ps.config.hasApiCreds then
    { ps := { ps with statusFile := some { message := Status.clientInitFailed, progress := prevProgress } },
      progress := prevProgress, connected := false, disconnected := false, removals := 0 }
  else if !ps.config.hasChannels then
    { ps := { ps with statusFile := some { message := Status.missingChannels, progress := prevProgress } },
      progress := prevProgress, connected := true, disconnected := false, removals := 0 }
  else if env.resolveFails then
    { ps := { ps with statusFile := some { message := Status.channelAccessFailed, progress := prevProgress } },
      progress := prevProgress, connected := true, disconnected := false, removals := 0 }
  else
    let st0 : St :=
      { statusFile := ps.statusFile, sentLog := ps.sentLog, errorLog := ps.errorLog,
        removals := 0, flag := ps.stopMarker, progress := prevProgress }
    let st1 := writeStatus st0 Status.collecting
    let res := collectLoop env.pages env.collectStopSets env.collectErrs st1 []
    let msgs := rangeFilter startId endId res.2.reverse
    let total := msgs.length
    let st3 := { res.1 with progress := (0, total) }
    let st4 := writeStatus st3 (Status.readyToClone total)
    let interval := max 1 (total / 10)
    let st5 := sendLoop msgs env.sendStopSets env.sendFails interval st4
    let st6 := finalizeStatus env.finalStopSet st5
    { ps := { statusFile := st6.statusFile, sentLog := st6.sentLog, errorLog := st6.errorLog,
              stopMarker := st6.flag, startMarker := ps.startMarker, config := ps.config },
      progress := st6.progress, connected := true, disconnected := true,
      removals := st6.removals }

/-- A schedule whose members are all false does not fire now. -/
theorem headD_false {l : List Bool} (h : ∀ b ∈ l, b = false) :
    l.head?.getD false = false := by
  cases l with
  | nil => rfl
  | cons a t => exact h a (List.mem_cons_self a t)

/-- A schedule whose members are all false stays all false after one step. -/
theorem tail_all_false {l : List Bool} (h : ∀ b ∈ l, b = false) :
    ∀ b ∈ l.tail, b = false :=
  fun b hb => h b (List.mem_of_mem_tail hb)

/-- Modelled from the C4 claim wording: the ids of the items that were reached
(no stop marker observed at an earlier check) and whose processing succeeded
or was a no-op (the transfer did not raise), in processing order. -/
def processedOkIds : List Message → List Bool → List Bool → List Int
  | [], _, _ => []
  | m :: ms, stops, fails =>
    if stops.headD false then []
    else if fails.headD false then processedOkIds ms stops.tail fails.tail
    else m.id :: processedOkIds ms stops.tail fails.tail

/-- The replication loop appends to the sent log exactly the ids of the
reached items whose transfer did not raise, in processing order. -/
theorem sendLoop_sentLog (msgs : List Message) (stops fails : List Bool)
    (interval : Nat) (st : St) (hflag : st.flag = false) :
    (sendLoop msgs stops fails interval st).sentLog =
      st.sentLog ++ processedOkIds msgs stops fails := by
  induction msgs generalizing stops fails st with
  | nil => simp [sendLoop, processedOkIds]
  | cons m ms ih =>
    cases hstop : stops.head?.getD false with
    | true => simp [sendLoop, processedOkIds, hflag, hstop]
    | false =>
      cases hfail : fails.head?.getD false with
      | true =>
        have h2 := ih stops.tail fails.tail (sendStepFail m st) (by simp [hflag])
        simp [sendLoop, processedOkIds, hflag, hstop, hfail, h2]
      | false =>
        have h2 := ih stops.tail fails.tail (sendStepOk m interval st) (by simp [hflag])
        simp [sendLoop, processedOkIds, hflag, hstop, hfail, h2, List.append_assoc]

/-- The ids kept by processedOkIds form a subsequence of the input ids. -/
theorem processedOkIds_sublist (msgs : List Message) (stops fails : List Bool) :
    List.Sublist (processedOkIds msgs stops fails) (msgs.map Message.id) := by
  induction msgs generalizing stops fails with
  | nil => simp [processedOkIds]
  | cons m ms ih =>
    simp only [processedOkIds, List.map_cons]
    split
    · exact List.nil_sublist _
    · split
      · exact List.Sublist.cons m.id (ih stops.tail fails.tail)
      · exact List.Sublist.cons₂ m.id (ih stops.tail fails.tail)

/-- C4: over any run of the replication loop (any stop and failure schedule),
the ids appended to the sent log are exactly the ids of the items reached and
processed without a raised transfer - a no-op item counts, a failing item
contributes nothing - in processing order, and when the input is
chronological (non-decreasing ids, as the Reader produces) that appended
sequence is non-decreasing. -/
theorem sent_log_exact_and_monotone (msgs : List Message) (stops fails : List Bool)
    (interval : Nat) (st : St) (hflag : st.flag = false)
    (hsorted : (msgs.map Message.id).Pairwise (fun a b => a ≤ b)) :
    (sendLoop msgs stops fails interval st).sentLog =
      st.sentLog ++ processedOkIds msgs stops fails ∧
    (processedOkIds msgs stops fails).Pairwise (fun a b => a ≤ b) :=
  ⟨sendLoop_sentLog msgs stops fails interval st hflag,
   List.Pairwise.sublist (processedOkIds_sublist msgs stops fails) hsorted⟩

/-- Witness for C4: three chronological items, the middle transfer raising. -/
theorem sent_log_exact_and_monotone_witness :
    (sendLoop
        [{ id := 1, text := none, media := false },
         { id := 2, text := none, media := false },
         { id := 3, text := none, media := false }]
        [] [false, true, false] 1
        { statusFile := none, sentLog := [], errorLog := [], removals := 0,
          flag := false, progress := (0, 3) }).sentLog =
      [] ++ processedOkIds
        [{ id := 1, text := none, media := false },
         { id := 2, text := none, media := false },
         { id := 3, text := none, media := false }] [] [false, true, false] ∧
    (processedOkIds
        [{ id := 1, text := none, media := false },
         { id := 2, text := none, media := false },
         { id := 3, text := none, media := false }] [] [false, true, false]).Pairwise
      (fun a b => a ≤ b) :=
  sent_log_exact_and_monotone _ _ _ _ _ rfl (by decide)

/-- Modelled from the C7 claim wording: ids of the items whose transfer raised. -/
def failedIds : List Message → List Bool → List Int
  | [], _ => []
  | m :: ms, fails =>
    if fails.headD false then m.id :: failedIds ms fails.tail
    else failedIds ms fails.tail

/-- Modelled from the C7 claim wording: ids of the items whose transfer
succeeded or was a no-op. -/
def okIds : List Message → List Bool → List Int
  | [], _ => []
  | m :: ms, fails =>
    if fails.headD false then okIds ms fails.tail
    else m.id :: okIds ms fails.tail

/-- C7: with no stop request, a raised transfer is caught: the failing item is
appended to the error log and contributes no sent-log entry, the job is not
aborted, and every remaining item is still attempted - the failing and
succeeding items together account for the whole input. -/
theorem per_item_failure_isolated (msgs : List Message) (stops fails : List Bool)
    (interval : Nat) (st : St) (hflag : st.flag = false)
    (hstops : ∀ b ∈ stops, b = false) :
    (sendLoop msgs stops fails interval st).errorLog =
      st.errorLog ++ failedIds msgs fails ∧
    (sendLoop msgs stops fails interval st).sentLog =
      st.sentLog ++ okIds msgs fails ∧
    (failedIds msgs fails).length + (okIds msgs fails).length = msgs.length := by
  induction msgs generalizing stops fails st with
  | nil => simp [sendLoop, failedIds, okIds]
  | cons m ms ih =>
    have hstop : stops.head?.getD false = false := headD_false hstops
    cases hfail : fails.head?.getD false with
    | true =>
      have h2 := ih stops.tail fails.tail (sendStepFail m st) (by simp [hflag])
        (tail_all_false hstops)
      refine ⟨?_, ?_, ?_⟩
      · simp [sendLoop, failedIds, hflag, hstop, hfail, h2.1, List.append_assoc]
      · simp [sendLoop, okIds, hflag, hstop, hfail, h2.2.1]
      · have h3 := h2.2.2
        simp [failedIds, okIds, hfail]
        omega
    | false =>
      have h2 := ih stops.tail fails.tail (sendStepOk m interval st) (by simp [hflag])
        (tail_all_false hstops)
      refine ⟨?_, ?_, ?_⟩
      · simp [sendLoop, failedIds, hflag, hstop, hfail, h2.1]
      · simp [sendLoop, okIds, hflag, hstop, hfail, h2.2.1, List.append_assoc]
      · have h3 := h2.2.2
        simp [failedIds, okIds, hfail]
        omega

/-- Witness for C7: two items, the first transfer raising. -/
theorem per_item_failure_isolated_witness :
    (sendLoop
        [{ id := 1, text := none, media := false },
         { id := 2, text := none, media := false }]
        [] [true, false] 1
        { statusFile := none, sentLog := [], errorLog := [], removals := 0,
          flag := false, progress := (0, 2) }).errorLog =
      [] ++ failedIds
        [{ id := 1, text := none, media := false },
         { id := 2, text := none, media := false }] [true, false] ∧
    (sendLoop
        [{ id := 1, text := none, media := false },
         { id := 2, text := none, media := false }]
        [] [true, false] 1
        { statusFile := none, sentLog := [], errorLog := [], removals := 0,
          flag := false, progress := (0, 2) }).sentLog =
      [] ++ okIds
        [{ id := 1, text := none, media := false },
         { id := 2, text := none, media := false }] [true, false] ∧
    (failedIds
        [{ id := 1, text := none, media := false },
         { id := 2, text := none, media := false }] [true, false]).length +
      (okIds
        [{ id := 1, text := none, media := false },
         { id := 2, text := none, media := false }] [true, false]).length = 2 :=
  per_item_failure_isolated _ _ _ _ _ rfl (by decide)

/-- A fully configured persisted state with no pending markers. -/
def psFresh : PersistedState :=
  { statusFile := none, sentLog := [], errorLog := [], stopMarker := false,
    startMarker := true, config := { hasApiCreds := true, hasChannels := true } }

/-- An environment in which nothing happens: no pages, no stop requests, no
failures. -/
def envEmpty : CloneEnv :=
  { resolveFails := false, pages := [], collectStopSets := [], collectErrs := [],
    sendStopSets := [], sendFails := [], finalStopSet := false }

/-- C6 (counterexample): calling clone_messages while a job is active does
mutate persisted state - the already-running reply goes through
update_status, which overwrites the status snapshot file (lines 97-110). -/
theorem already_running_overwrites_status :
    (clone_messages true (0, 0) none none envEmpty psFresh).ps ≠ psFresh := by
  decide

/-- C6 (amended): with a job already active, clone_messages reports the
already-running status and returns: the sent log, error log, both control
markers and the config are unchanged and no connection is made, but the
status snapshot file is overwritten with the already-running message and the
current progress of the running job. -/
theorem already_running_frame (pp : Nat × Nat) (s e : Option Int)
    (env : CloneEnv) (ps : PersistedState) :
    clone_messages true pp s e env ps =
      { ps := { ps with statusFile := some { message := Status.alreadyRunning, progress := pp } },
        progress := pp, connected := false, disconnected := false, removals := 0 } := rfl

/-- A persisted state with credentials but no source/target channels. -/
def psNoChannels : PersistedState :=
  { statusFile := none, sentLog := [], errorLog := [], stopMarker := false,
    startMarker := false, config := { hasApiCreds := true, hasChannels := false } }

/-- C8 (counterexample): with credentials present but the channel config
missing, initialize_client connects (line 94) and clone_messages returns at
line 137 without reaching the disconnect at line 249 - the connection is
established but never released. -/
theorem missing_channels_leak :
    (clone_messages false (0, 0) none none envEmpty psNoChannels).connected = true ∧
    (clone_messages false (0, 0) none none envEmpty psNoChannels).disconnected = false :=
  ⟨rfl, rfl⟩

/-- C8 (amended): an invocation that passes the credential, channel-config
and resolution checks always reaches the final disconnect, whatever the stop
and failure schedules (Completed or StoppedEarly alike); but the two Failed
paths that occur after the connection is established - missing channel
configuration and channel-resolution failure - return without releasing it. -/
theorem connection_release (pp : Nat × Nat) (s e : Option Int)
    (env : CloneEnv) (ps : PersistedState) :
    (ps.config.hasApiCreds = true → ps.config.hasChannels = true →
      env.resolveFails = false →
      (clone_messages false pp s e env ps).connected = true ∧
      (clone_messages false pp s e env ps).disconnected = true) ∧
    (ps.config.hasApiCreds = true →
      (ps.config.hasChannels = false ∨ env.resolveFails = true) →
      (clone_messages false pp s e env ps).connected = true ∧
      (clone_messages false pp s e env ps).disconnected = false) := by
  constructor
  · intro h1 h2 h3
    simp [clone_messages, h1, h2, h3]
  · intro h1 h2
    rcases h2 with h2 | h2
    · simp [clone_messages, h1, h2]
    · cases hc : ps.config.hasChannels <;> simp [clone_messages, h1, h2, hc]

/-- Witness for C8 (amended): a fully configured run with an empty channel
disconnects; a run with missing channel config stays connected. -/
theorem connection_release_witness :
    ((clone_messages false (0, 0) none none envEmpty psFresh).connected = true ∧
      (clone_messages false (0, 0) none none envEmpty psFresh).disconnected = true) ∧
    ((clone_messages false (0, 0) none none envEmpty psNoChannels).connected = true ∧
      (clone_messages false (0, 0) none none envEmpty psNoChannels).disconnected = false) :=
  ⟨(connection_release (0, 0) none none envEmpty psFresh).1 rfl rfl rfl,
   (connection_release (0, 0) none none envEmpty psNoChannels).2 rfl (Or.inl rfl)⟩

/-- If the stop marker appears before the check preceding page k (and no
fetch raises before then), the collection loop consumes the marker exactly
once, reports the stopped status, and returns the first k pages appended to
the accumulator; no other field changes. -/
theorem collectLoop_stop_at (k : Nat) (pages : List (List Message))
    (rest errs : List Bool) (st : St) (acc : List Message)
    (hk : k ≤ pages.length) (hpages : ∀ p ∈ pages, p ≠ [])
    (hflag : st.flag = false) (herrs : ∀ b ∈ errs, b = false) :
    collectLoop pages (List.replicate k false ++ true :: rest) errs st acc =
      (writeStatus { st with flag := false, removals := st.removals + 1 }
        Status.stoppedByUser,
       acc ++ (pages.take k).flatten) := by
  induction k generalizing pages errs st acc with
  | zero =>
    rw [collectLoop.eq_def]
    simp [hflag]
  | succ k ih =>
    cases pages with
    | nil => simp at hk
    | cons p rest2 =>
      have hp : p ≠ [] := hpages p (List.mem_cons_self p rest2)
      have hpe : p.isEmpty = false := by
        cases p with
        | nil => exact absurd rfl hp
        | cons a t => rfl
      have hk2 : k ≤ rest2.length := by
        simp only [List.length_cons] at hk; omega
      have herr0 : errs.head?.getD false = false := headD_false herrs
      have hpages2 : ∀ q ∈ rest2, q ≠ [] :=
        fun q hq => hpages q (List.mem_cons_of_mem p hq)
      rw [List.replicate_succ, collectLoop.eq_def]
      simp only [List.cons_append, List.headD_eq_head?_getD, List.head?_cons,
        Option.getD_some, hflag, Bool.false_or, herr0, hpe, Bool.false_eq_true,
        if_false, List.tail_cons]
      split
      · rw [ih rest2 errs.tail _ (acc ++ p) hk2 hpages2 (by simp [hflag])
          (tail_all_false herrs)]
        simp [writeStatus, List.append_assoc]
      · rw [ih rest2 errs.tail _ (acc ++ p) hk2 hpages2 (by simp [hflag])
          (tail_all_false herrs)]
        simp [writeStatus, List.append_assoc]

/-- With no stop request and no failing transfer, the replication loop keeps
the flag cleared, removes nothing, leaves the error log alone, and advances
progress by the number of items. -/
theorem sendLoop_no_stop_fields (msgs : List Message) (stops fails : List Bool)
    (interval : Nat) (st : St) (hflag : st.flag = false)
    (hstops : ∀ b ∈ stops, b = false) (hfails : ∀ b ∈ fails, b = false) :
    (sendLoop msgs stops fails interval st).flag = false ∧
    (sendLoop msgs stops fails interval st).removals = st.removals ∧
    (sendLoop msgs stops fails interval st).errorLog = st.errorLog ∧
    (sendLoop msgs stops fails interval st).progress =
      (st.progress.1 + msgs.length, st.progress.2) := by
  induction msgs generalizing stops fails st with
  | nil => simp [sendLoop, hflag]
  | cons m ms ih =>
    have hstop : stops.head?.getD false = false := headD_false hstops
    have hfail : fails.head?.getD false = false := headD_false hfails
    have h2 := ih stops.tail fails.tail (sendStepOk m interval st) (by simp [hflag])
      (tail_all_false hstops) (tail_all_false hfails)
    refine ⟨?_, ?_, ?_, ?_⟩
    · simp [sendLoop, hflag, hstop, hfail, h2.1]
    · simp [sendLoop, hflag, hstop, hfail, h2.2.1]
    · simp [sendLoop, hflag, hstop, hfail, h2.2.2.1]
    · have h3 := h2.2.2.2
      simp only [sendStepOk_progress] at h3
      simp [sendLoop, hflag, hstop, hfail, h3]
      omega

/-- With empty schedules, every item is reached and succeeds. -/
theorem processedOkIds_nil_nil (msgs : List Message) :
    processedOkIds msgs [] [] = msgs.map Message.id := by
  induction msgs with
  | nil => simp [processedOkIds]
  | cons m ms ih => simp [processedOkIds, ih]

/-- Unfolding of clone_messages along the main path (idle worker, credentials
and channels configured, resolution succeeding). -/
theorem clone_messages_main (pp : Nat × Nat) (s e : Option Int) (env : CloneEnv)
    (ps : PersistedState) (hcreds : ps.config.hasApiCreds = true)
    (hch : ps.config.hasChannels = true) (hres : env.resolveFails = false) :
    clone_messages false pp s e env ps =
      (let st1 := writeStatus
          { statusFile := ps.statusFile, sentLog := ps.sentLog, errorLog := ps.errorLog,
            removals := 0, flag := ps.stopMarker, progress := pp } Status.collecting
       let res := collectLoop env.pages env.collectStopSets env.collectErrs st1 []
       let msgs := rangeFilter s e res.2.reverse
       let st4 := writeStatus { res.1 with progress := (0, msgs.length) }
          (Status.readyToClone msgs.length)
       let st6 := finalizeStatus env.finalStopSet
          (sendLoop msgs env.sendStopSets env.sendFails (max 1 (msgs.length / 10)) st4)
       { ps := { statusFile := st6.statusFile, sentLog := st6.sentLog,
                 errorLog := st6.errorLog, stopMarker := st6.flag,
                 startMarker := ps.startMarker, config := ps.config },
         progress := st6.progress, connected := true, disconnected := true,
         removals := st6.removals }) := by
  simp [clone_messages, hcreds, hch, hres]

/-- Replicating a whole batch with empty stop and failure schedules and a
quiet final check: the sent log gains every id, nothing else changes except
progress and the final completed status. -/
theorem sendFinalize_fields (msgs : List Message) (interval : Nat) (st : St)
    (hflag : st.flag = false) :
    (finalizeStatus false (sendLoop msgs [] [] interval st)).sentLog =
        st.sentLog ++ msgs.map Message.id ∧
    (finalizeStatus false (sendLoop msgs [] [] interval st)).errorLog = st.errorLog ∧
    (finalizeStatus false (sendLoop msgs [] [] interval st)).removals = st.removals ∧
    (finalizeStatus false (sendLoop msgs [] [] interval st)).flag = false ∧
    (finalizeStatus false (sendLoop msgs [] [] interval st)).progress =
        (st.progress.1 + msgs.length, st.progress.2) ∧
    (finalizeStatus false (sendLoop msgs [] [] interval st)).statusFile =
        some { message := Status.completed (st.progress.1 + msgs.length) st.progress.2,
               progress := (st.progress.1 + msgs.length, st.progress.2) } := by
  have hs := sendLoop_sentLog msgs [] [] interval st hflag
  have hf := sendLoop_no_stop_fields msgs [] [] interval st hflag
    (fun b hb => absurd hb (List.not_mem_nil b))
    (fun b hb => absurd hb (List.not_mem_nil b))
  have hfin : finalizeStatus false (sendLoop msgs [] [] interval st) =
      writeStatus (sendLoop msgs [] [] interval st)
        (Status.completed (sendLoop msgs [] [] interval st).progress.1
          (sendLoop msgs [] [] interval st).progress.2) := by
    rw [finalizeStatus]
    simp [hf.1]
  rw [hfin]
  refine ⟨?_, ?_, ?_, ?_, ?_, ?_⟩ <;>
    simp [hs, hf.1, hf.2.1, hf.2.2.1, hf.2.2.2, processedOkIds_nil_nil]

/-- C10: if the stop marker appears during collection (before the check
preceding page k), the marker is consumed - exactly one removal in the whole
run - and fetching ends, but the job does not terminate: the k pages gathered
so far are reversed, put through the range filter, fully replicated (every
filtered id is appended to the sent log), the job finalizes with a completed
status over the partial total, and the connection is released. -/
theorem stop_during_collection_continues (k : Nat) (pages : List (List Message))
    (rest : List Bool) (s e : Option Int) (pp : Nat × Nat) (ps : PersistedState)
    (hcreds : ps.config.hasApiCreds = true) (hch : ps.config.hasChannels = true)
    (hmark : ps.stopMarker = false)
    (hk : k ≤ pages.length) (hpages : ∀ p ∈ pages, p ≠ []) :
    (clone_messages false pp s e
        { resolveFails := false, pages := pages,
          collectStopSets := List.replicate k false ++ true :: rest,
          collectErrs := [], sendStopSets := [], sendFails := [],
          finalStopSet := false } ps).ps.sentLog =
      ps.sentLog ++
        (rangeFilter s e ((pages.take k).flatten).reverse).map Message.id ∧
    (clone_messages false pp s e
        { resolveFails := false, pages := pages,
          collectStopSets := List.replicate k false ++ true :: rest,
          collectErrs := [], sendStopSets := [], sendFails := [],
          finalStopSet := false } ps).ps.statusFile =
      some { message := Status.completed
                (rangeFilter s e ((pages.take k).flatten).reverse).length
                (rangeFilter s e ((pages.take k).flatten).reverse).length,
             progress := ((rangeFilter s e ((pages.take k).flatten).reverse).length,
                          (rangeFilter s e ((pages.take k).flatten).reverse).length) } ∧
    (clone_messages false pp s e
        { resolveFails := false, pages := pages,
          collectStopSets := List.replicate k false ++ true :: rest,
          collectErrs := [], sendStopSets := [], sendFails := [],
          finalStopSet := false } ps).removals = 1 ∧
    (clone_messages false pp s e
        { resolveFails := false, pages := pages,
          collectStopSets := List.replicate k false ++ true :: rest,
          collectErrs := [], sendStopSets := [], sendFails := [],
          finalStopSet := false } ps).disconnected = true := by
  have hcl := collectLoop_stop_at k pages rest []
    (writeStatus
      { statusFile := ps.statusFile, sentLog := ps.sentLog, errorLog := ps.errorLog,
        removals := 0, flag := ps.stopMarker, progress := pp } Status.collecting) []
    hk hpages (by simp [hmark]) (fun b hb => absurd hb (List.not_mem_nil b))
  rw [clone_messages_main pp s e _ ps hcreds hch rfl]
  dsimp only
  rw [hcl]
  dsimp only
  simp only [List.nil_append]
  have h6 := sendFinalize_fields
    (rangeFilter s e ((pages.take k).flatten).reverse)
    (max 1 ((rangeFilter s e ((pages.take k).flatten).reverse).length / 10))
    (writeStatus
      { (writeStatus
          { statusFile := ps.statusFile, sentLog := ps.sentLog, errorLog := ps.errorLog,
            removals := 0, flag := ps.stopMarker, progress := pp } Status.collecting) with
          flag := false,
          removals := (writeStatus
            { statusFile := ps.statusFile, sentLog := ps.sentLog, errorLog := ps.errorLog,
              removals := 0, flag := ps.stopMarker, progress := pp } Status.collecting).removals + 1,
          statusFile := some { message := Status.stoppedByUser, progress := pp },
          progress := (0, (rangeFilter s e ((pages.take k).flatten).reverse).length) }
      (Status.readyToClone (rangeFilter s e ((pages.take k).flatten).reverse).length))
    (by simp)
  refine ⟨?_, ?_, ?_, ?_⟩
  · simpa [writeStatus] using h6.1
  · simpa [writeStatus] using h6.2.2.2.2.2
  · simpa [writeStatus] using h6.2.2.1
  · trivial

/-- Witness for C10: one of two pages is collected before the stop, and both
of its messages are still replicated. -/
theorem stop_during_collection_continues_witness :
    (clone_messages false (0, 0) none none
        { resolveFails := false,
          pages := [[{ id := 2, text := none, media := false },
                     { id := 1, text := none, media := false }],
                    [{ id := 4, text := none, media := false },
                     { id := 3, text := none, media := false }]],
          collectStopSets := List.replicate 1 false ++ true :: [],
          collectErrs := [], sendStopSets := [], sendFails := [],
          finalStopSet := false } psFresh).ps.sentLog = [1, 2] ∧
    (clone_messages false (0, 0) none none
        { resolveFails := false,
          pages := [[{ id := 2, text := none, media := false },
                     { id := 1, text := none, media := false }],
                    [{ id := 4, text := none, media := false },
                     { id := 3, text := none, media := false }]],
          collectStopSets := List.replicate 1 false ++ true :: [],
          collectErrs := [], sendStopSets := [], sendFails := [],
          finalStopSet := false } psFresh).removals = 1 := by
  have h := stop_during_collection_continues 1
    [[{ id := 2, text := none, media := false },
      { id := 1, text := none, media := false }],
     [{ id := 4, text := none, media := false },
      { id := 3, text := none, media := false }]]
    [] none none (0, 0) psFresh rfl rfl rfl (by decide) (by decide)
  exact ⟨by simpa [psFresh, rangeFilter, pyTruthy] using h.1, h.2.2.1⟩

/-- A platform page of n messages with descending ids hi, hi-1, ... (newest
first), all plain no-media no-text items. -/
def pageDesc (hi : Int) (n : Nat) : List Message :=
  (List.range n).map (fun i => { id := hi - (i : Int), text := none, media := false })

/-- The C3 scenario environment: a 250-message channel fetched in pages of
100, 100 and 50, no range bounds, and the stop marker created after the 50th
item is processed (observed at the 51st pre-item check). -/
def envStopMid : CloneEnv :=
  { resolveFails := false,
    pages := [pageDesc 250 100, pageDesc 150 100, pageDesc 50 50],
    collectStopSets := [], collectErrs := [],
    sendStopSets := List.replicate 50 false ++ [true],
    sendFails := [], finalStopSet := false }

/-- C3 (evaluation at the failing input): with the stop marker set after 50
of 250 items, processing does stop before the next item (progress.done is 50,
the sent log holds exactly ids 1..50) and the marker is removed exactly once
and stays cleared - but the final persisted status is Completed 50/250, not
StoppedEarly: the in-loop check already consumed the marker, so the
stopped-early branch of the final status block (lines 242-245) cannot fire. -/
theorem stop_midway_completed_not_stopped_early :
    (clone_messages false (0, 0) none none envStopMid psFresh).ps.statusFile =
      some { message := Status.completed 50 250, progress := (50, 250) } ∧
    (clone_messages false (0, 0) none none envStopMid psFresh).progress = (50, 250) ∧
    (clone_messages false (0, 0) none none envStopMid psFresh).removals = 1 ∧
    (clone_messages false (0, 0) none none envStopMid psFresh).ps.stopMarker = false ∧
    (clone_messages false (0, 0) none none envStopMid psFresh).ps.sentLog =
      (List.range 50).map (fun i => (i : Int) + 1) := by
  set_option maxRecDepth 100000 in decide

end CloneSpec
